import Mathlib

/-!
Shallow embedding of the `ssh-config-auditor` core:
`auditor/utils/parser.py` (directive parser, port validator, boolean
normalizer) and `auditor/checks/ssh_config_checks.py` (the three rule checks
and the `audit_ssh_config` orchestrator).

Python strings are modelled as Lean `String`/`List Char`, restricted to the
ASCII behaviour of the relevant Python primitives (the regex classes `\s` and
`[A-Za-z0-9]`, `str.strip`, `str.lower`, `int(str)`); every directive and
label in this code base is ASCII.  Python `dict[str, str]` is modelled as an
insertion-ordered association list with overwrite-in-place semantics
(`dictInsert`), matching CPython dict insertion/overwrite behaviour.
-/

namespace SSHAuditor

/-- ASCII whitespace recognized by Python's regex `\s` and by `str.strip()`:
space, tab, newline, carriage return, vertical tab, form feed. -/
def isPySpace (c : Char) : Bool :=
  c = ' ' || c = '\t' || c = '\n' || c = '\r' || c = '\x0b' || c = '\x0c'

/-- The regex character class `[A-Za-z0-9]` used for directive keys. -/
def isKeyChar (c : Char) : Bool :=
  ('A' ≤ c && c ≤ 'Z') || ('a' ≤ c && c ≤ 'z') || ('0' ≤ c && c ≤ '9')

/-- Python `str.strip()` with no argument: remove leading and trailing
whitespace. -/
def pyStrip (s : List Char) : List Char :=
  ((s.dropWhile isPySpace).reverse.dropWhile isPySpace).reverse

/-- Python `str.lower()` restricted to ASCII letters. -/
def pyLower (s : List Char) : List Char :=
  s.map Char.toLower

/-- Python `str.split('\n')` (note: `"".split('\n') == [""]`). -/
def splitLinesAux : List Char → List Char → List (List Char)
  | [], acc => [acc.reverse]
  | c :: rest, acc =>
    if c = '\n' then acc.reverse :: splitLinesAux rest []
    else splitLinesAux rest (c :: acc)

def splitLines (s : List Char) : List (List Char) :=
  splitLinesAux s []

/-- One application of `re.search(r'^\s*([A-Za-z0-9]+)\s+(.*)$', line)` from
`parse_sshd_config`, followed by the `.strip()` calls on both captured
groups.  The `^` anchor (no MULTILINE flag) pins the match to the start of
the line, `\s*` and `[A-Za-z0-9]+` take their maximal runs, `\s+` requires at
least one whitespace character after the key, and `(.*)` takes the rest of
the line.  Returns `none` when the line does not match. -/
def lineMatch (line : List Char) : Option (String × String) :=
  let afterWs := line.dropWhile isPySpace
  let key := afterWs.takeWhile isKeyChar
  let rest := afterWs.dropWhile isKeyChar
  if key.isEmpty then none
  else
    match rest with
    | [] => none
    | c :: _ =>
      if isPySpace c then
        some ((pyStrip key).asString, (pyStrip (rest.dropWhile isPySpace)).asString)
      else none

/-- CPython `dict` assignment `d[k] = v` on an insertion-ordered mapping:
overwrite in place when the key exists, otherwise append. -/
def dictInsert (m : List (String × String)) (k v : String) : List (String × String) :=
  match m with
  | [] => [(k, v)]
  | (k1, v1) :: rest =>
    if k1 = k then (k1, v) :: rest
    else (k1, v1) :: dictInsert rest k v

/-- Lookup in the association-list model of `dict` (keys are unique, so first
match suffices). -/
def dictGet : List (String × String) → String → Option String
  | [], _ => none
  | (k1, v1) :: rest, k => if k1 = k then some v1 else dictGet rest k

/-- Python `dict.get(key, default)`. -/
def dictGetD (m : List (String × String)) (k d : String) : String :=
  (dictGet m k).getD d

/-- The body of the `for line in config_data.split('\n')` loop of
`parse_sshd_config`: on a match, assign `config_dict[key] = value`,
otherwise leave the dict unchanged. -/
def parseStep (m : List (String × String)) (line : List Char) : List (String × String) :=
  match lineMatch line with
  | some (k, v) => dictInsert m k v
  | none => m

/-- `parse_sshd_config` from `auditor/utils/parser.py`: split on newlines,
match each line against the key/value pattern, later values for the same key
overwrite earlier ones. -/
def parse_sshd_config (config_data : String) : List (String × String) :=
  (splitLines config_data.data).foldl parseStep []

/-- Value of an unsigned digit run after its first digit, allowing single
underscores between digits as Python `int` does (`int("2_2") == 22`, while
`int("2__2")` and `int("2_")` fail). -/
def digitsValAux (acc : Nat) : List Char → Option Nat
  | [] => some acc
  | '_' :: c :: rest =>
    if c.isDigit then digitsValAux (10 * acc + (c.toNat - 48)) rest else none
  | c :: rest =>
    if c.isDigit then digitsValAux (10 * acc + (c.toNat - 48)) rest else none

/-- A nonempty digit run with optional single underscores between digits. -/
def digitsVal : List Char → Option Nat
  | [] => none
  | c :: rest => if c.isDigit then digitsValAux (c.toNat - 48) rest else none

/-- Python `int(s)` on an ASCII string: surrounding whitespace is stripped,
an optional single `+`/`-` sign is accepted, then a nonempty digit run
(single underscores allowed between digits); anything else fails
(`ValueError`). -/
def pyIntParse (s : List Char) : Option Int :=
  match pyStrip s with
  | '+' :: rest => (digitsVal rest).map (fun n => (n : Int))
  | '-' :: rest => (digitsVal rest).map (fun n => -(n : Int))
  | t => (digitsVal t).map (fun n => (n : Int))

/-- `validate_ssh_port` from `auditor/utils/parser.py`: `int(port)` with the
`ValueError` handler returning `False`, else `1 <= port_num <= 65535`. -/
def validate_ssh_port (port : String) : Bool :=
  match pyIntParse port.data with
  | some n => decide (1 ≤ n ∧ n ≤ 65535)
  | none => false

/-- `normalize_boolean_setting` from `auditor/utils/parser.py`: strip and
lowercase, then `yes`/`on` ↦ `some true`, `no`/`off` ↦ `some false`,
anything else ↦ `none` (the input is always a string in this model, so the
`isinstance` guard is always passed). -/
def normalize_boolean_setting (value : String) : Option Bool :=
  let valLower := pyLower (pyStrip value.data)
  if valLower = "yes".data ∨ valLower = "on".data then some true
  else if valLower = "no".data ∨ valLower = "off".data then some false
  else none

/-- `SSHConfigAuditor.check_port`. -/
def check_port (config_dict : List (String × String)) : String :=
  let port := dictGetD config_dict "Port" "22"
  if validate_ssh_port port = true ∧ port ≠ "22" then
    "Secure (Port " ++ port ++ ")"
  else "Default (Port 22)"

/-- `SSHConfigAuditor.check_password_auth`. -/
def check_password_auth (config_dict : List (String × String)) : String :=
  let value := dictGetD config_dict "PasswordAuthentication" "yes"
  match normalize_boolean_setting value with
  | some false => "Secure"
  | some true => "Insecure"
  | none => "Unknown"

/-- `SSHConfigAuditor.check_root_login`.  Note: the source lowercases the
value but does not strip it. -/
def check_root_login (config_dict : List (String × String)) : String :=
  let value := (pyLower (dictGetD config_dict "PermitRootLogin" "yes").data).asString
  if value = "no" ∨ value = "without-password" ∨ value = "prohibit-password" then
    "Secure"
  else if value = "yes" then "Insecure"
  else "Unknown"

/-- The Python exceptions that can arise inside `audit_ssh_config`'s `try`
block: `paramiko.SSHException` (including its `AuthenticationException`
subclass), `IOError`/`OSError`, and `UnicodeDecodeError` from
`.decode("utf-8")`.  Only `sshException` is matched by the outer `except`
clause of `audit_ssh_config`; only `ioError` is matched by the inner
`except IOError` around the remote-file read. -/
inductive PyExn
  | sshException (msg : String)
  | ioError (msg : String)
  | unicodeDecodeError (msg : String)
deriving DecidableEq, Repr

/-- One invocation's behaviour of the external transport collaborator
(paramiko), as consumed by `audit_ssh_config`:
`keyLoad` is the outcome of `paramiko.RSAKey.from_private_key_file`
(raises `IOError` when the key file is missing/unreadable, `SSHException`
when it is malformed); `connect` is the outcome of `client.connect` plus
`client.open_sftp` (raises `SSHException` on authentication or transport
failure); `remoteRead` is the outcome of
`sftp.open(...).read().decode("utf-8")` (raises `IOError` when the remote
file is absent or unreadable, `UnicodeDecodeError` when its bytes are not
UTF-8, otherwise yields the text). -/
structure GatewayBehavior where
  keyLoad : Except PyExn Unit
  connect : Except PyExn Unit
  remoteRead : Except PyExn String

/-- Python truthiness of the optional `self.password` string as used in
`if self.password:` — `None` and the empty string are falsy. -/
def pyTruthyStr : Option String → Bool
  | none => false
  | some s => !s.isEmpty

/-- The connection phase of `audit_ssh_config`: with a truthy password,
connect with the password; otherwise load the key first when `key_file` is
set (`paramiko.RSAKey.from_private_key_file`), then connect with the key. -/
def connect_step (password key_file : Option String) (gw : GatewayBehavior) :
    Except PyExn Unit :=
  if pyTruthyStr password then gw.connect
  else
    match key_file with
    | some _ =>
      match gw.keyLoad with
      | Except.error e => Except.error e
      | Except.ok _ => gw.connect
    | none => gw.connect

/-- The evaluation phase of `audit_ssh_config` once `config_data` is in
hand: `if config_data:` run the three checks, else report the retrieval
error.  The successive `results[...] = ...` assignments are modelled with
`dictInsert` on the initially empty dict. -/
def evalConfig (config_data : String) : List (String × String) :=
  if !config_data.isEmpty then
    let config_dict := parse_sshd_config config_data
    dictInsert
      (dictInsert
        (dictInsert [] "PortConfig" (check_port config_dict))
        "PasswordAuthentication" (check_password_auth config_dict))
      "RootLogin" (check_root_login config_dict)
  else
    dictInsert [] "Error" "Unable to retrieve sshd_config."

/-- The body of `audit_ssh_config`'s outer `try` block.  The inner
`try ... except IOError: config_data = ""` converts an `IOError` from the
remote read into empty text; every other exception flows out of the body. -/
def audit_try_body (password key_file : Option String) (gw : GatewayBehavior) :
    Except PyExn (List (String × String)) :=
  match connect_step password key_file gw with
  | Except.error e => Except.error e
  | Except.ok _ =>
    match gw.remoteRead with
    | Except.error (PyExn.ioError _) => Except.ok (evalConfig "")
    | Except.error e => Except.error e
    | Except.ok s => Except.ok (evalConfig s)

/-- `SSHConfigAuditor.audit_ssh_config`: the outer
`except paramiko.SSHException as ssh_err` converts an `SSHException` into
the single report entry `ConnectionError -> "SSH error: <msg>"`; any other
exception escapes to the caller (an `Except.error` result models an
uncaught exception propagating out of the method). -/
def audit_ssh_config (password key_file : Option String) (gw : GatewayBehavior) :
    Except PyExn (List (String × String)) :=
  match audit_try_body password key_file gw with
  | Except.error (PyExn.sshException m) =>
    Except.ok (dictInsert [] "ConnectionError" ("SSH error: " ++ m))
  | Except.error e => Except.error e
  | Except.ok r => Except.ok r

/-- Spec-side helper: the value of `line` when its matched key equals `k`. -/
def matchSelect (k : String) (line : List Char) : Option String :=
  match lineMatch line with
  | some kv => if kv.1 = k then some kv.2 else none
  | none => none

/-- Spec-side helper: the values of all lines of `config_data` whose matched
key equals `k`, in file order. -/
def matchedValues (k : String) (config_data : String) : List String :=
  (splitLines config_data.data).filterMap (matchSelect k)

/-- Spec-side helper: the last element of `vals` when it exists, otherwise
the fallback. -/
def lastOr (vals : List String) (fallback : Option String) : Option String :=
  match vals.getLast? with
  | some v => some v
  | none => fallback

lemma asString_eq_iff (l : List Char) (s : String) : l.asString = s ↔ l = s.data := by
  constructor
  · intro h
    cases s with
    | mk data => injection h
  · intro h
    subst h
    rfl

lemma dictGet_dictInsert_self (m : List (String × String)) (k v : String) :
    dictGet (dictInsert m k v) k = some v := by
  induction m with
  | nil => simp [dictInsert, dictGet]
  | cons p rest ih =>
    obtain ⟨k1, v1⟩ := p
    by_cases h : k1 = k <;> simp [dictInsert, dictGet, h, ih]

lemma dictGet_dictInsert_ne (m : List (String × String)) (k1 k v : String)
    (h : k1 ≠ k) : dictGet (dictInsert m k1 v) k = dictGet m k := by
  induction m with
  | nil => simp [dictInsert, dictGet, h]
  | cons p rest ih =>
    obtain ⟨k2, v2⟩ := p
    by_cases h2 : k2 = k1
    · subst h2
      simp [dictInsert, dictGet, h]
    · by_cases h3 : k2 = k
      · subst h3
        simp [dictInsert, dictGet, Ne.symm h]
      · simp [dictInsert, dictGet, h2, h3, ih]

lemma getLast?_cons_lastOr (a : String) (l : List String) :
    (a :: l).getLast? = lastOr l (some a) := by
  rw [List.getLast?_cons]
  cases h : l.getLast? <;> simp [lastOr, h]

/-- Key correctness lemma for the parser fold: looking up `k` in the folded
dictionary yields the value of the last matching line for `k`, falling back
to the incoming dictionary. -/
lemma dictGet_parse_fold (lines : List (List Char)) (m : List (String × String))
    (k : String) :
    dictGet (lines.foldl parseStep m) k
      = lastOr (lines.filterMap (matchSelect k)) (dictGet m k) := by
  induction lines generalizing m with
  | nil => simp [lastOr]
  | cons line rest ih =>
    cases hlm : lineMatch line with
    | none =>
      simp only [List.foldl_cons, parseStep, matchSelect, hlm]
      rw [List.filterMap_cons_none]
      · exact ih m
      · simp [matchSelect, hlm]
    | some kv =>
      obtain ⟨k1, v⟩ := kv
      by_cases hk : k1 = k
      · subst hk
        have hsel : matchSelect k1 line = some v := by simp [matchSelect, hlm]
        simp only [List.foldl_cons, parseStep, hlm]
        rw [List.filterMap_cons_some hsel, ih, dictGet_dictInsert_self]
        cases hr : (rest.filterMap (matchSelect k1)).getLast? <;>
          simp [lastOr, getLast?_cons_lastOr, hr]
      · have hsel : matchSelect k line = none := by simp [matchSelect, hlm, hk]
        simp only [List.foldl_cons, parseStep, hlm]
        rw [List.filterMap_cons_none hsel, ih, dictGet_dictInsert_ne _ _ _ _ hk]

/-- C7: when the same directive key matches on more than one line, the
parser's output maps that key to the value of the last matching line
(last-write-wins); in particular `"Port 22\nPort 2222"` parses to
`Port = 2222`. -/
theorem C7_last_write_wins :
    (∀ (config_data k : String),
        2 ≤ (matchedValues k config_data).length →
        dictGet (parse_sshd_config config_data) k
          = (matchedValues k config_data).getLast?)
    ∧ parse_sshd_config "Port 22\nPort 2222" = [("Port", "2222")] := by
  constructor
  · intro text k _
    rw [parse_sshd_config, matchedValues, dictGet_parse_fold]
    cases hr : ((splitLines text.data).filterMap (matchSelect k)).getLast? <;>
      simp [lastOr, dictGet, hr]
  · decide

theorem C7_witness :
    dictGet (parse_sshd_config "Port 22\nPort 2222") "Port"
      = (matchedValues "Port" "Port 22\nPort 2222").getLast? :=
  C7_last_write_wins.1 _ _ (by decide)

/-- C8: the parser never fails: empty input parses to the empty mapping;
all-whitespace (blank) lines, comment lines whose first non-whitespace
character is `#`, and key-only lines such as `"Port"` match nothing, and a
non-matching line leaves the dictionary unchanged; the four-line example
text parses to exactly its three directive entries. -/
theorem C8_parser_never_fails :
    parse_sshd_config "" = []
    ∧ (∀ line : List Char, (∀ c ∈ line, isPySpace c = true) → lineMatch line = none)
    ∧ (∀ line : List Char, (line.dropWhile isPySpace).head? = some '#' →
        lineMatch line = none)
    ∧ lineMatch "Port".data = none
    ∧ (∀ (m : List (String × String)) (line : List Char),
        lineMatch line = none → parseStep m line = m)
    ∧ parse_sshd_config "Port 2222\nPasswordAuthentication no\n# comment\nPermitRootLogin no"
        = [("Port", "2222"), ("PasswordAuthentication", "no"), ("PermitRootLogin", "no")] := by
  refine ⟨by decide, ?_, ?_, by decide, ?_, by decide⟩
  · intro line h
    have hnil : line.dropWhile isPySpace = [] :=
      List.dropWhile_eq_nil_iff.mpr h
    simp [lineMatch, hnil]
  · intro line h
    cases hA : line.dropWhile isPySpace with
    | nil => rw [hA] at h; exact absurd h (by simp)
    | cons c t =>
      rw [hA] at h
      have hc : c = '#' := by simpa using h
      subst hc
      simp [lineMatch, hA, List.takeWhile, isKeyChar]
  · intro m line h
    simp [parseStep, h]

theorem C8_witness :
    lineMatch " \t ".data = none
    ∧ lineMatch "   # comment".data = none
    ∧ parseStep [("Port", "22")] "#x".data = [("Port", "22")] :=
  ⟨C8_parser_never_fails.2.1 _ (by decide),
   C8_parser_never_fails.2.2.1 _ (by decide),
   C8_parser_never_fails.2.2.2.2.1 _ _ (by decide)⟩

lemma dictGetD_of_get_some (m : List (String × String)) (k d v : String)
    (h : dictGet m k = some v) : dictGetD m k d = v := by
  simp [dictGetD, h]

lemma dictGetD_of_get_none (m : List (String × String)) (k d : String)
    (h : dictGet m k = none) : dictGetD m k d = d := by
  simp [dictGetD, h]

/-- C2: the password-authentication check reads `PasswordAuthentication`
with default `"yes"` when absent (so an absent key behaves like the value
`"yes"` and yields `"Insecure"`), and normalizes the value by trimming and
lowercasing: `yes`/`on` → `"Insecure"`, `no`/`off` → `"Secure"`, any other
value → `"Unknown"`. -/
theorem C2_password_auth_normalization :
    (∀ (cfg : List (String × String)) (v : String),
        dictGet cfg "PasswordAuthentication" = some v →
        check_password_auth cfg =
          (if (pyLower (pyStrip v.data)).asString = "yes"
              ∨ (pyLower (pyStrip v.data)).asString = "on" then "Insecure"
           else if (pyLower (pyStrip v.data)).asString = "no"
              ∨ (pyLower (pyStrip v.data)).asString = "off" then "Secure"
           else "Unknown"))
    ∧ (∀ cfg : List (String × String),
        dictGet cfg "PasswordAuthentication" = none →
        check_password_auth cfg = "Insecure")
    ∧ check_password_auth [("PasswordAuthentication", "YES")] = "Insecure"
    ∧ check_password_auth [("PasswordAuthentication", " On ")] = "Insecure"
    ∧ check_password_auth [("PasswordAuthentication", "no")] = "Secure"
    ∧ check_password_auth [("PasswordAuthentication", "OFF")] = "Secure"
    ∧ check_password_auth [("PasswordAuthentication", "maybe")] = "Unknown" := by
  refine ⟨?_, ?_, by decide, by decide, by decide, by decide, by decide⟩
  · intro cfg v h
    have hv := dictGetD_of_get_some cfg "PasswordAuthentication" "yes" v h
    simp only [check_password_auth, hv, normalize_boolean_setting, asString_eq_iff]
    by_cases h1 : pyLower (pyStrip v.data) = "yes".data
        ∨ pyLower (pyStrip v.data) = "on".data
    · simp [h1]
    · by_cases h2 : pyLower (pyStrip v.data) = "no".data
          ∨ pyLower (pyStrip v.data) = "off".data
      · simp [h1, h2]
      · simp [h1, h2]
  · intro cfg h
    have hv := dictGetD_of_get_none cfg "PasswordAuthentication" "yes" h
    simp only [check_password_auth, hv]
    decide

theorem C2_witness :
    (check_password_auth [("PasswordAuthentication", "On")] =
      (if (pyLower (pyStrip ("On" : String).data)).asString = "yes"
          ∨ (pyLower (pyStrip ("On" : String).data)).asString = "on" then "Insecure"
       else if (pyLower (pyStrip ("On" : String).data)).asString = "no"
          ∨ (pyLower (pyStrip ("On" : String).data)).asString = "off" then "Secure"
       else "Unknown"))
    ∧ check_password_auth [("Protocol", "2")] = "Insecure" :=
  ⟨C2_password_auth_normalization.1 _ "On" (by decide),
   C2_password_auth_normalization.2.1 _ (by decide)⟩

/-- C3: the claim (matching the method's own docstring and the repository's
unit test `test_check_password_auth`) says a mapping lacking
`PasswordAuthentication` yields `"Unknown"`; the code instead defaults the
missing value to `"yes"` and returns `"Insecure"`.  This theorem evaluates
the code at the failing input `{"PermitRootLogin": "no"}` used by that
test. -/
theorem C3_code_behavior_at_failing_input :
    check_password_auth [("PermitRootLogin", "no")] = "Insecure"
    ∧ ("Insecure" : String) ≠ "Unknown" := by
  exact ⟨by decide, by decide⟩

/-- C4 counterexample: the claim says the root-login check trims the value,
so `{"PermitRootLogin": " no "}` would yield `"Secure"`; the code only
lowercases (no trim), so the whitespace-padded value falls through to
`"Unknown"`. -/
theorem C4_counterexample :
    check_root_login [("PermitRootLogin", " no ")] = "Unknown"
    ∧ ("Unknown" : String) ≠ "Secure" := by
  exact ⟨by decide, by decide⟩

/-- C4 amended: the root-login check reads `PermitRootLogin` with default
`"yes"` when absent and lowercases the value without trimming: membership
in {no, without-password, prohibit-password} → `"Secure"`, exactly `yes` →
`"Insecure"`, anything else (including whitespace-padded values such as
`" no "`) → `"Unknown"`; absent yields `"Insecure"`. -/
theorem C4_root_login_no_trim :
    (∀ (cfg : List (String × String)) (v : String),
        dictGet cfg "PermitRootLogin" = some v →
        check_root_login cfg =
          (if (pyLower v.data).asString = "no"
              ∨ (pyLower v.data).asString = "without-password"
              ∨ (pyLower v.data).asString = "prohibit-password" then "Secure"
           else if (pyLower v.data).asString = "yes" then "Insecure"
           else "Unknown"))
    ∧ (∀ cfg : List (String × String),
        dictGet cfg "PermitRootLogin" = none → check_root_login cfg = "Insecure")
    ∧ check_root_login [("PermitRootLogin", "NO")] = "Secure"
    ∧ check_root_login [("PermitRootLogin", "Without-Password")] = "Secure"
    ∧ check_root_login [("PermitRootLogin", "prohibit-password")] = "Secure"
    ∧ check_root_login [("PermitRootLogin", "YES")] = "Insecure"
    ∧ check_root_login [("PermitRootLogin", "forced-commands-only")] = "Unknown"
    ∧ check_root_login [("PermitRootLogin", " no ")] = "Unknown" := by
  refine ⟨?_, ?_, by decide, by decide, by decide, by decide, by decide, by decide⟩
  · intro cfg v h
    have hv := dictGetD_of_get_some cfg "PermitRootLogin" "yes" v h
    simp only [check_root_login, hv]
  · intro cfg h
    have hv := dictGetD_of_get_none cfg "PermitRootLogin" "yes" h
    simp only [check_root_login, hv]
    decide

lemma secure_label_ne_default (p : String) :
    "Secure (Port " ++ p ++ ")" ≠ "Default (Port 22)" := by
  intro h
  have h2 := congrArg (fun s : String => s.data.head?) h
  simp only [String.data_append] at h2
  simp only [List.cons_append, List.head?_cons] at h2
  exact absurd h2 (by decide)

/-- C5: the port check reads `Port` with default `"22"` when absent and
returns `"Secure (Port <value>)"` exactly when the value passes the port
validator and is not the literal string `"22"`; otherwise it returns
`"Default (Port 22)"`; with the claim's five concrete cases. -/
theorem C5_port_check :
    (∀ cfg : List (String × String),
        check_port cfg = "Secure (Port " ++ dictGetD cfg "Port" "22" ++ ")"
          ↔ validate_ssh_port (dictGetD cfg "Port" "22") = true
            ∧ dictGetD cfg "Port" "22" ≠ "22")
    ∧ (∀ cfg : List (String × String),
        ¬(validate_ssh_port (dictGetD cfg "Port" "22") = true
            ∧ dictGetD cfg "Port" "22" ≠ "22") →
        check_port cfg = "Default (Port 22)")
    ∧ check_port [] = "Default (Port 22)"
    ∧ check_port [("Port", "2222")] = "Secure (Port 2222)"
    ∧ check_port [("Port", "22")] = "Default (Port 22)"
    ∧ check_port [("Port", "abc")] = "Default (Port 22)"
    ∧ check_port [("Port", "0")] = "Default (Port 22)"
    ∧ check_port [("Port", "70000")] = "Default (Port 22)" := by
  refine ⟨?_, ?_, by decide, by decide, by decide, by decide, by decide, by decide⟩
  · intro cfg
    simp only [check_port]
    by_cases hc : validate_ssh_port (dictGetD cfg "Port" "22") = true
        ∧ dictGetD cfg "Port" "22" ≠ "22"
    · rw [if_pos hc]
      exact iff_of_true rfl hc
    · rw [if_neg hc]
      constructor
      · intro h
        exact absurd h.symm (secure_label_ne_default _)
      · intro h
        exact absurd h hc
  · intro cfg h
    simp only [check_port]
    rw [if_neg h]

theorem C5_witness :
    (check_port [("Port", "2200")] = "Secure (Port " ++ dictGetD [("Port", "2200")] "Port" "22" ++ ")"
      ↔ validate_ssh_port (dictGetD [("Port", "2200")] "Port" "22") = true
        ∧ dictGetD [("Port", "2200")] "Port" "22" ≠ "22")
    ∧ check_port [("Port", "abc")] = "Default (Port 22)" :=
  ⟨C5_port_check.1 _, C5_port_check.2.1 _ (by decide)⟩

/-- C6 counterexample: the claim says every string with surrounding
whitespace fails to parse and is invalid, but Python's `int` strips
surrounding whitespace, so the validator accepts `" 22 "`. -/
theorem C6_counterexample : validate_ssh_port " 22 " = true := by decide

/-- C6 amended: the validator returns true exactly when the string parses
as an integer (Python `int` semantics: surrounding whitespace stripped, an
optional sign, digits) in the inclusive range [1, 65535]; parse failure
returns false rather than raising; leading or trailing non-numeric
characters other than whitespace and a leading sign make the parse fail. -/
theorem C6_port_validator :
    (∀ s : String,
        validate_ssh_port s = true ↔
          ∃ n : Int, pyIntParse s.data = some n ∧ 1 ≤ n ∧ n ≤ 65535)
    ∧ validate_ssh_port " 22 " = true
    ∧ validate_ssh_port "+22" = true
    ∧ validate_ssh_port "2_2" = true
    ∧ validate_ssh_port "a22" = false
    ∧ validate_ssh_port "22b" = false
    ∧ validate_ssh_port "6 5" = false
    ∧ validate_ssh_port "" = false
    ∧ validate_ssh_port "0" = false
    ∧ validate_ssh_port "70000" = false
    ∧ validate_ssh_port "-1" = false
    ∧ validate_ssh_port "1" = true
    ∧ validate_ssh_port "65535" = true := by
  refine ⟨?_, by decide, by decide, by decide, by decide, by decide, by decide,
    by decide, by decide, by decide, by decide, by decide, by decide⟩
  intro s
  cases hp : pyIntParse s.data with
  | none => simp [validate_ssh_port, hp]
  | some n => simp [validate_ssh_port, hp]

theorem C4_witness :
    (check_root_login [("PermitRootLogin", "Prohibit-Password")] =
      (if (pyLower ("Prohibit-Password" : String).data).asString = "no"
          ∨ (pyLower ("Prohibit-Password" : String).data).asString = "without-password"
          ∨ (pyLower ("Prohibit-Password" : String).data).asString = "prohibit-password"
       then "Secure"
       else if (pyLower ("Prohibit-Password" : String).data).asString = "yes"
       then "Insecure"
       else "Unknown"))
    ∧ check_root_login [("Port", "22")] = "Insecure" :=
  ⟨C4_root_login_no_trim.1 _ "Prohibit-Password" (by decide),
   C4_root_login_no_trim.2.1 _ (by decide)⟩

lemma connect_step_keyLoad_ok (pw kf : Option String) (c : Except PyExn Unit)
    (rr : Except PyExn String) :
    connect_step pw kf ⟨Except.ok (), c, rr⟩ = c := by
  by_cases hpw : pyTruthyStr pw = true
  · simp [connect_step, hpw]
  · cases kf <;> simp [connect_step, hpw]

lemma evalConfig_shape (s : String) :
    (∃ a b c, evalConfig s
        = [("PortConfig", a), ("PasswordAuthentication", b), ("RootLogin", c)])
    ∨ evalConfig s = [("Error", "Unable to retrieve sshd_config.")] := by
  by_cases h : s.isEmpty
  · right
    simp [evalConfig, h, dictInsert]
  · left
    have hb : (!s.isEmpty) = true := by simp [h]
    simp only [evalConfig, hb, if_true]
    exact ⟨_, _, _, rfl⟩

lemma audit_ok_cases (pw kf : Option String) (gw : GatewayBehavior)
    (r : List (String × String)) (h : audit_ssh_config pw kf gw = Except.ok r) :
    (∃ m, r = [("ConnectionError", "SSH error: " ++ m)]) ∨ ∃ s, r = evalConfig s := by
  unfold audit_ssh_config audit_try_body at h
  cases hcs : connect_step pw kf gw with
  | error e =>
    rw [hcs] at h
    cases e with
    | sshException m =>
      simp only [Except.ok.injEq] at h
      exact Or.inl ⟨m, h.symm⟩
    | ioError m => simp at h
    | unicodeDecodeError m => simp at h
  | ok u =>
    rw [hcs] at h
    cases hrr : gw.remoteRead with
    | error e =>
      rw [hrr] at h
      cases e with
      | sshException m =>
        simp only [Except.ok.injEq] at h
        exact Or.inl ⟨m, h.symm⟩
      | ioError m =>
        simp only [Except.ok.injEq] at h
        exact Or.inr ⟨"", h.symm⟩
      | unicodeDecodeError m => simp at h
    | ok s =>
      rw [hrr] at h
      simp only [Except.ok.injEq] at h
      exact Or.inr ⟨s, h.symm⟩

lemma audit_sshException_capture (pw kf : Option String) (m : String)
    (rr : Except PyExn String) :
    audit_ssh_config pw kf ⟨Except.ok (), Except.error (PyExn.sshException m), rr⟩
      = Except.ok [("ConnectionError", "SSH error: " ++ m)] := by
  unfold audit_ssh_config audit_try_body
  rw [connect_step_keyLoad_ok]
  rfl

lemma audit_empty_text (pw kf : Option String) :
    audit_ssh_config pw kf ⟨Except.ok (), Except.ok (), Except.ok ""⟩
      = Except.ok [("Error", "Unable to retrieve sshd_config.")] := by
  unfold audit_ssh_config audit_try_body
  rw [connect_step_keyLoad_ok]
  rfl

lemma audit_remoteRead_ioError (pw kf : Option String) (m : String) :
    audit_ssh_config pw kf ⟨Except.ok (), Except.ok (), Except.error (PyExn.ioError m)⟩
      = Except.ok [("Error", "Unable to retrieve sshd_config.")] := by
  unfold audit_ssh_config audit_try_body
  rw [connect_step_keyLoad_ok]
  rfl

lemma audit_unicode_propagates (pw kf : Option String) (m : String) :
    audit_ssh_config pw kf
        ⟨Except.ok (), Except.ok (), Except.error (PyExn.unicodeDecodeError m)⟩
      = Except.error (PyExn.unicodeDecodeError m) := by
  unfold audit_ssh_config audit_try_body
  rw [connect_step_keyLoad_ok]

/-- C1: every report the audit produces has exactly one of two shapes —
either exactly the three check entries `PortConfig`,
`PasswordAuthentication`, `RootLogin` and no error entry, or exactly one
error entry and no check entries; a connection failure yields the single
entry `ConnectionError -> "SSH error: <msg>"` and empty retrieved text
yields the single entry `Error -> "Unable to retrieve sshd_config."`. -/
theorem C1_report_shape :
    (∀ (pw kf : Option String) (gw : GatewayBehavior) (r : List (String × String)),
        audit_ssh_config pw kf gw = Except.ok r →
        (∃ a b c, r = [("PortConfig", a), ("PasswordAuthentication", b), ("RootLogin", c)])
        ∨ (∃ m, r = [("ConnectionError", m)])
        ∨ r = [("Error", "Unable to retrieve sshd_config.")])
    ∧ (∀ (pw kf : Option String) (m : String) (rr : Except PyExn String),
        audit_ssh_config pw kf ⟨Except.ok (), Except.error (PyExn.sshException m), rr⟩
          = Except.ok [("ConnectionError", "SSH error: " ++ m)])
    ∧ (∀ pw kf : Option String,
        audit_ssh_config pw kf ⟨Except.ok (), Except.ok (), Except.ok ""⟩
          = Except.ok [("Error", "Unable to retrieve sshd_config.")]) := by
  refine ⟨?_, audit_sshException_capture, audit_empty_text⟩
  intro pw kf gw r h
  rcases audit_ok_cases pw kf gw r h with ⟨m, rfl⟩ | ⟨s, rfl⟩
  · exact Or.inr (Or.inl ⟨_, rfl⟩)
  · rcases evalConfig_shape s with ⟨a, b, c, hh⟩ | hh
    · exact Or.inl ⟨a, b, c, hh⟩
    · exact Or.inr (Or.inr hh)

theorem C1_witness :
    (∃ a b c, [(("Error" : String), ("Unable to retrieve sshd_config." : String))]
        = [("PortConfig", a), ("PasswordAuthentication", b), ("RootLogin", c)])
    ∨ (∃ m, [(("Error" : String), ("Unable to retrieve sshd_config." : String))]
        = [("ConnectionError", m)])
    ∨ [(("Error" : String), ("Unable to retrieve sshd_config." : String))]
        = [("Error", "Unable to retrieve sshd_config.")] :=
  C1_report_shape.1 none none ⟨Except.ok (), Except.ok (), Except.ok ""⟩ _ (by rfl)

/-- C9 counterexample: a key-file read failure (`IOError` from
`paramiko.RSAKey.from_private_key_file`) is not matched by either `except`
clause, so the audit call propagates it to its caller instead of converting
it into a report entry — refuting the claim that no transport-collaborator
failure ever escapes. -/
theorem C9_counterexample :
    audit_ssh_config none (some "/root/.ssh/id_rsa")
        ⟨Except.error (PyExn.ioError "Unable to open key file"), Except.ok (),
          Except.ok "Port 22"⟩
      = Except.error (PyExn.ioError "Unable to open key file") := by
  rfl

/-- C9 amended: failures raised as `SSHException` (authentication/transport
failures, including during key parsing) are captured as a `ConnectionError`
report entry, and an `IOError` during the remote file read is converted to
the `Error` report entry; but an `IOError` while reading the local key file
and a `UnicodeDecodeError` on non-UTF-8 remote content propagate to the
caller uncaught.  An `SSHException` never propagates. -/
theorem C9_exception_capture :
    (∀ (pw kf : Option String) (m : String) (rr : Except PyExn String),
        audit_ssh_config pw kf ⟨Except.ok (), Except.error (PyExn.sshException m), rr⟩
          = Except.ok [("ConnectionError", "SSH error: " ++ m)])
    ∧ (∀ (kf m : String) (cn : Except PyExn Unit) (rr : Except PyExn String),
        audit_ssh_config none (some kf) ⟨Except.error (PyExn.sshException m), cn, rr⟩
          = Except.ok [("ConnectionError", "SSH error: " ++ m)])
    ∧ (∀ (pw kf : Option String) (m : String),
        audit_ssh_config pw kf
            ⟨Except.ok (), Except.ok (), Except.error (PyExn.ioError m)⟩
          = Except.ok [("Error", "Unable to retrieve sshd_config.")])
    ∧ (∀ (kf m : String) (cn : Except PyExn Unit) (rr : Except PyExn String),
        audit_ssh_config none (some kf) ⟨Except.error (PyExn.ioError m), cn, rr⟩
          = Except.error (PyExn.ioError m))
    ∧ (∀ (pw kf : Option String) (m : String),
        audit_ssh_config pw kf
            ⟨Except.ok (), Except.ok (), Except.error (PyExn.unicodeDecodeError m)⟩
          = Except.error (PyExn.unicodeDecodeError m))
    ∧ (∀ (pw kf : Option String) (gw : GatewayBehavior) (e : PyExn),
        audit_ssh_config pw kf gw = Except.error e →
        ∀ m : String, e ≠ PyExn.sshException m) := by
  refine ⟨audit_sshException_capture, fun kf m cn rr => rfl,
    audit_remoteRead_ioError, fun kf m cn rr => rfl, audit_unicode_propagates, ?_⟩
  intro pw kf gw e h m
  unfold audit_ssh_config audit_try_body at h
  cases hcs : connect_step pw kf gw with
  | error e0 =>
    rw [hcs] at h
    cases e0 with
    | sshException m0 => simp at h
    | ioError m0 =>
      simp only [Except.error.injEq] at h
      subst h
      simp
    | unicodeDecodeError m0 =>
      simp only [Except.error.injEq] at h
      subst h
      simp
  | ok u =>
    rw [hcs] at h
    cases hrr : gw.remoteRead with
    | error e0 =>
      rw [hrr] at h
      cases e0 with
      | sshException m0 => simp at h
      | ioError m0 => simp at h
      | unicodeDecodeError m0 =>
        simp only [Except.error.injEq] at h
        subst h
        simp
    | ok s =>
      rw [hrr] at h
      simp at h

theorem C9_witness :
    PyExn.ioError "boom" ≠ PyExn.sshException "x" :=
  C9_exception_capture.2.2.2.2.2 none (some "/k")
    ⟨Except.error (PyExn.ioError "boom"), Except.ok (), Except.ok ""⟩
    (PyExn.ioError "boom") (by rfl) "x"

/-- C10: credential precedence is decided by `if self.password:` — Python
truthiness — so an empty-string password is treated exactly like an absent
password: the password-authentication branch is not taken and key-based
authentication is attempted (the key file is actually consulted). -/
theorem C10_empty_password_key_auth :
    pyTruthyStr (some "") = false
    ∧ (∀ (kf : Option String) (gw : GatewayBehavior),
        audit_ssh_config (some "") kf gw = audit_ssh_config none kf gw)
    ∧ (∀ k m : String,
        audit_ssh_config (some "") (some k)
            ⟨Except.error (PyExn.ioError m), Except.ok (), Except.ok "Port 22"⟩
          = Except.error (PyExn.ioError m)) := by
  exact ⟨rfl, fun kf gw => rfl, fun k m => rfl⟩

end SSHAuditor
